import Mathlib

/-!
Shallow embedding of the capital-partner matcher in
`src/capital_matcher.py` (the scoring core of the repository), together
with theorems settling the specification claims about it.

Modelling conventions:
* Python floats (`deal_size`, `min_deal_size`, `max_deal_size`,
  `target_ltc`, `max_ltc`, ...) are modelled as rationals `ℚ`: the matcher
  only ever compares these values with `<`, `>` and `<=`, and on the
  decimal values occurring here the float order agrees with the rational
  order, so no rounding behaviour is observable.
* The integer score accumulator is a `Nat` (it only ever receives
  `+= 20/25/20/15/20`).
* The human-readable f-string messages appended to `reasons` and
  `blockers` are modelled by the inductive types `Reason` and `Blocker`:
  one constructor per distinct f-string in the source, carrying the
  interpolated values, so distinct messages stay distinct while the
  decimal rendering (`:.0f` etc.) is abstracted away.
* Python's substring test `a in b` is `pyIn a b`; Python's `str.lower` is
  `pyLower` (all data here is ASCII).
-/

namespace CapitalMatcher

/-- Substring containment on character lists: `hasSub needle hay = true`
iff `needle` occurs contiguously in `hay` (Python's `needle in hay`). -/
def hasSub (needle : List Char) : List Char → Bool
  | [] => needle.isEmpty
  | c :: t => needle.isPrefixOf (c :: t) || hasSub needle t

/-- Python's `needle in hay` on strings. -/
def pyIn (needle hay : String) : Bool :=
  hasSub needle.toList hay.toList

/-- Python's `str.lower()`, character by character (all strings reaching
the matcher are ASCII, where the two agree). -/
def pyLower (s : String) : String :=
  String.mk (s.toList.map Char.toLower)

/-- `Deal` dataclass, capital_matcher.py lines 29-38. -/
structure Deal where
  name : String
  deal_size : ℚ
  property_type : String
  location : String
  loan_type : String
  target_ltc : ℚ
  target_ltv : Option ℚ := none
deriving DecidableEq

/-- `CapitalPartner` dataclass, capital_matcher.py lines 41-58. -/
structure CapitalPartner where
  name : String
  item_id : String
  min_deal_size : ℚ
  max_deal_size : ℚ
  loan_types : List String
  property_types : List String
  geographies : List String
  max_ltc : ℚ
  max_ltv : ℚ
  typical_spread : String
  leverage_point : String
  pricing_tier : String
  recourse : String
  program_notes : String
  primary_contact : String
deriving DecidableEq

/-- One constructor per positive-reason f-string in `match_partner`
(lines 194, 200, 208, 223, 231), carrying the interpolated values. -/
inductive Reason where
  | dealSizeInRange (deal_size : ℚ)
  | doesLoanType (loan_type : String)
  | doesPropertyType (property_type : String)
  | coversLocation (location : String)
  | canDoLtc (target_ltc max_ltc : ℚ)
deriving DecidableEq

/-- One constructor per blocker f-string in `match_partner`
(lines 189, 191, 202, 210, 225, 233), carrying the interpolated values. -/
inductive Blocker where
  | belowMin (deal_size min_deal_size : ℚ)
  | aboveMax (deal_size max_deal_size : ℚ)
  | noLoanType (loan_type : String) (does : List String)
  | noPropertyType (property_type : String)
  | noGeography (location : String) (does : List String)
  | ltcExceedsMax (target_ltc max_ltc : ℚ)
deriving DecidableEq

/-- The dict returned by `match_partner`, lines 246-257. -/
structure MatchResult where
  partner : String
  score : Nat
  match_level : String
  reasons : List Reason
  blockers : List Blocker
  pricing : String
  leverage_point : String
  pricing_tier : String
  contact : String
  notes : String
deriving DecidableEq

/-- Deal size check, lines 187-194: blocker if outside the partner's
range, else +20.  A contribution is a triple
(points, reasons appended, blockers appended); `match_partner`
concatenates the five contributions in source order, which is exactly
what the sequential `+=` / `.append` calls do. -/
def sizeCrit (deal : Deal) (p : CapitalPartner) : Nat × List Reason × List Blocker :=
  if 0 < p.min_deal_size ∧ deal.deal_size < p.min_deal_size then
    (0, [], [Blocker.belowMin deal.deal_size p.min_deal_size])
  else if 0 < p.max_deal_size ∧ p.max_deal_size < deal.deal_size then
    (0, [], [Blocker.aboveMax deal.deal_size p.max_deal_size])
  else
    (20, [Reason.dealSizeInRange deal.deal_size], [])

/-- Loan type check, lines 196-202: skipped when `partner.loan_types` is
empty (Python truthiness of the list). -/
def loanCrit (deal : Deal) (p : CapitalPartner) : Nat × List Reason × List Blocker :=
  if p.loan_types.isEmpty then (0, [], [])
  else if p.loan_types.any (fun lt => pyIn (pyLower deal.loan_type) (pyLower lt)) then
    (25, [Reason.doesLoanType deal.loan_type], [])
  else
    (0, [], [Blocker.noLoanType deal.loan_type p.loan_types])

/-- Property type check, lines 204-210. -/
def propCrit (deal : Deal) (p : CapitalPartner) : Nat × List Reason × List Blocker :=
  if p.property_types.isEmpty then (0, [], [])
  else if p.property_types.any (fun pt => pyIn (pyLower deal.property_type) (pyLower pt)) then
    (20, [Reason.doesPropertyType deal.property_type], [])
  else
    (0, [], [Blocker.noPropertyType deal.property_type])

/-- Geography check, lines 212-225. -/
def geoCrit (deal : Deal) (p : CapitalPartner) : Nat × List Reason × List Blocker :=
  if p.geographies.isEmpty then (0, [], [])
  else
    if p.geographies.any (fun geo =>
        pyIn (pyLower geo) (pyLower deal.location) ||
        pyIn (pyLower deal.location) (pyLower geo) ||
        (pyLower geo == "national")) then
      (15, [Reason.coversLocation deal.location], [])
    else
      (0, [], [Blocker.noGeography deal.location p.geographies])

/-- LTC check, lines 227-233: skipped when `partner.max_ltc` is not
positive. -/
def ltcCrit (deal : Deal) (p : CapitalPartner) : Nat × List Reason × List Blocker :=
  if 0 < p.max_ltc then
    if deal.target_ltc ≤ p.max_ltc then
      (20, [Reason.canDoLtc deal.target_ltc p.max_ltc], [])
    else
      (0, [], [Blocker.ltcExceedsMax deal.target_ltc p.max_ltc])
  else (0, [], [])

/-- Accumulated `score` after the five criterion blocks (before the
blocker override of line 238). -/
def critScore (deal : Deal) (p : CapitalPartner) : Nat :=
  (sizeCrit deal p).1 + (loanCrit deal p).1 + (propCrit deal p).1 +
    (geoCrit deal p).1 + (ltcCrit deal p).1

/-- Accumulated `reasons` list after the five criterion blocks. -/
def critReasons (deal : Deal) (p : CapitalPartner) : List Reason :=
  (sizeCrit deal p).2.1 ++ (loanCrit deal p).2.1 ++ (propCrit deal p).2.1 ++
    (geoCrit deal p).2.1 ++ (ltcCrit deal p).2.1

/-- Accumulated `blockers` list after the five criterion blocks. -/
def critBlockers (deal : Deal) (p : CapitalPartner) : List Blocker :=
  (sizeCrit deal p).2.2 ++ (loanCrit deal p).2.2 ++ (propCrit deal p).2.2 ++
    (geoCrit deal p).2.2 ++ (ltcCrit deal p).2.2

/-- `match_partner`, lines 178-257: evaluates the five criteria in order
(none short-circuits) and then classifies, lines 235-244: any blocker
forces level NO MATCH and score 0; otherwise score ≥ 80 is HIGH MATCH,
score ≥ 50 is PARTIAL MATCH, else LOW MATCH. -/
def match_partner (deal : Deal) (p : CapitalPartner) : MatchResult :=
  { partner := p.name
    score := if critBlockers deal p ≠ [] then 0 else critScore deal p
    match_level :=
      if critBlockers deal p ≠ [] then "NO MATCH"
      else if 80 ≤ critScore deal p then "HIGH MATCH"
      else if 50 ≤ critScore deal p then "PARTIAL MATCH"
      else "LOW MATCH"
    reasons := critReasons deal p
    blockers := critBlockers deal p
    pricing := p.typical_spread
    leverage_point := p.leverage_point
    pricing_tier := p.pricing_tier
    contact := p.primary_contact
    notes := p.program_notes }

/-- `find_matches`, lines 260-271: one result per partner, then a stable
sort by score descending (Python's `list.sort(key=..., reverse=True)` is
stable: equal scores keep input order, which `List.mergeSort` with the
reflexive comparison `b.score ≤ a.score` reproduces exactly). -/
def find_matches (deal : Deal) (partners : List CapitalPartner) : List MatchResult :=
  (partners.map (fun p => match_partner deal p)).mergeSort
    (fun a b => decide (b.score ≤ a.score))

/-! ### Partner ingestion (`get_capital_partners`, lines 96-175)

Only the numeric coercion of the deal-size columns is claim-relevant.
`cols` is the per-item mapping from column id to displayed text built on
lines 134-136; we model it as an association list. -/

/-- Python `cols.get(k, dflt)`, first binding wins as in a dict built by
repeated assignment (later assignments overwrite, so the model keys are
assumed distinct, as Monday column ids are). -/
def dictGet (cols : List (String × String)) (k dflt : String) : String :=
  match cols.find? (fun kv => kv.1 == k) with
  | some kv => kv.2
  | none => dflt

/-- `s.replace(",", "").replace("$", "")`: removes every comma and dollar
sign. -/
def stripMoneyChars (s : String) : String :=
  String.mk (s.toList.filter (fun c => !(c == ',' || c == '$')))

/-- Python `float(s)` restricted to the unsigned decimal-integer strings
that occur in this data path (Monday numeric-column texts with `,` and
`$` already stripped); `none` where `float` would raise `ValueError`. -/
def pyFloat (s : String) : Option ℚ :=
  if s ≠ "" ∧ s.toList.all Char.isDigit then
    some ((s.toList.foldl (fun n c => 10 * n + (c.toNat - 48)) 0 : ℕ) : ℚ)
  else none

/-- Line 160 of capital_matcher.py:
`max_deal_size=float(cols.get("max_deal_size", "0").replace(",", "").replace("$", "") or 999999999)`.
The `or` falls through to the sentinel exactly when the stripped text is
the empty string (Python string truthiness); note that when the key is
absent from `cols` the `.get` default is the non-empty string `"0"`, so
the sentinel branch is NOT taken and the field becomes `0`. -/
def coerce_max_deal_size (cols : List (String × String)) : Option ℚ :=
  let t := stripMoneyChars (dictGet cols "max_deal_size" "0")
  if t = "" then some 999999999 else pyFloat t

/-- Line 159 of capital_matcher.py:
`min_deal_size=float(cols.get("min_deal_size", "0").replace(",", "").replace("$", "") or 0)`. -/
def coerce_min_deal_size (cols : List (String × String)) : Option ℚ :=
  let t := stripMoneyChars (dictGet cols "min_deal_size" "0")
  if t = "" then some 0 else pyFloat t

/-! ### Demo fixtures (`demo_partners`, lines 342-447)

The source constructs the six partners inline in the returned list; they
are named here so single partners can be referenced in theorems. -/

def oaknorth : CapitalPartner :=
  { name := "Oaknorth"
    item_id := "demo1"
    min_deal_size := 20000000
    max_deal_size := 150000000
    loan_types := ["Construction", "Bridge"]
    property_types := ["Multifamily", "Mixed-Use", "Office"]
    geographies := ["NYC", "Tri-State", "National"]
    max_ltc := 80
    max_ltv := 65
    typical_spread := "S+450-550"
    leverage_point := "High (75%+)"
    pricing_tier := "Premium"
    recourse := "Non-Recourse"
    program_notes := "Will go high leverage but prices wide. Good for deals needing max proceeds. Fast execution."
    primary_contact := "Max Saidman" }

def mesa_west : CapitalPartner :=
  { name := "Mesa West"
    item_id := "demo2"
    min_deal_size := 50000000
    max_deal_size := 300000000
    loan_types := ["Construction", "Bridge"]
    property_types := ["Multifamily", "Office", "Industrial"]
    geographies := ["National"]
    max_ltc := 70
    max_ltv := 60
    typical_spread := "S+350-425"
    leverage_point := "Mid (60-75%)"
    pricing_tier := "Market"
    recourse := "Non-Recourse"
    program_notes := "Balance sheet lender. Competitive pricing. Conservative on basis."
    primary_contact := "" }

def bawag : CapitalPartner :=
  { name := "Bawag"
    item_id := "demo3"
    min_deal_size := 30000000
    max_deal_size := 200000000
    loan_types := ["Construction"]
    property_types := ["Multifamily", "Mixed-Use"]
    geographies := ["NYC", "Tri-State"]
    max_ltc := 65
    max_ltv := 55
    typical_spread := "S+275-350"
    leverage_point := "Low (≤60%)"
    pricing_tier := "Aggressive"
    recourse := "Non-Recourse"
    program_notes := "European bank. Very aggressive pricing but lower leverage. Best for well-capitalized sponsors."
    primary_contact := "Eric Koefoed" }

def torchlight : CapitalPartner :=
  { name := "Torchlight"
    item_id := "demo4"
    min_deal_size := 25000000
    max_deal_size := 150000000
    loan_types := ["Mezz", "Pref Equity"]
    property_types := ["Multifamily", "Office", "Mixed-Use"]
    geographies := ["National"]
    max_ltc := 85
    max_ltv := 75
    typical_spread := "12-15%"
    leverage_point := "High (75%+)"
    pricing_tier := "Market"
    recourse := "Non-Recourse"
    program_notes := "Mezz/pref equity provider. Good for gap capital. Quick decisions."
    primary_contact := "Sydney Mas" }

def mf1 : CapitalPartner :=
  { name := "MF1"
    item_id := "demo5"
    min_deal_size := 30000000
    max_deal_size := 100000000
    loan_types := ["Bridge"]
    property_types := ["Multifamily"]
    geographies := ["National"]
    max_ltc := 75
    max_ltv := 70
    typical_spread := "S+375-450"
    leverage_point := "Mid (60-75%)"
    pricing_tier := "Market"
    recourse := "Non-Recourse"
    program_notes := "Multifamily specialist. Bridge only, no construction."
    primary_contact := "Sean Curtin" }

def hps : CapitalPartner :=
  { name := "HPS"
    item_id := "demo6"
    min_deal_size := 50000000
    max_deal_size := 500000000
    loan_types := ["Construction", "Mezz"]
    property_types := ["Multifamily", "Office", "Mixed-Use", "Industrial"]
    geographies := ["National"]
    max_ltc := 75
    max_ltv := 65
    typical_spread := "S+400-500"
    leverage_point := "Mid (60-75%)"
    pricing_tier := "Premium"
    recourse := "Non-Recourse"
    program_notes := "Large credit fund. Can do whole loan or mezz. Premium pricing but reliable execution."
    primary_contact := "" }

def demo_partners : List CapitalPartner :=
  [oaknorth, mesa_west, bawag, torchlight, mf1, hps]

/-- The deal of the spec's example scenarios (the CLI defaults of
`main`, lines 466-473, with `--deal-size 100000000`). -/
def exampleDeal : Deal :=
  { name := "Test Deal"
    deal_size := 100000000
    property_type := "Multifamily"
    location := "NYC"
    loan_type := "Construction"
    target_ltc := 75
    target_ltv := none }

/-- A 10M-dollar deal, used against `mesa_west` (min 50M) for the
below-minimum scenario of the spec. -/
def smallDeal : Deal :=
  { exampleDeal with deal_size := 10000000 }

/-- A partner with every optional criterion unrestricted: empty
`loan_types`, `property_types` and `geographies`, and `max_ltc = 0`
(zero `min_deal_size`/`max_deal_size` also impose no size bounds). -/
def openBook : CapitalPartner :=
  { name := "Open Book"
    item_id := "w1"
    min_deal_size := 0
    max_deal_size := 0
    loan_types := []
    property_types := []
    geographies := []
    max_ltc := 0
    max_ltv := 0
    typical_spread := ""
    leverage_point := ""
    pricing_tier := ""
    recourse := ""
    program_notes := ""
    primary_contact := "" }

/-- The geography-match condition of lines 215-220, in propositional
form: some partner geography label, lower-cased, is contained in the
deal's lower-cased location, or contains it, or equals `"national"`. -/
def geoMatches (d : Deal) (p : CapitalPartner) : Prop :=
  ∃ geo ∈ p.geographies,
    pyIn (pyLower geo) (pyLower d.location) = true ∨
    pyIn (pyLower d.location) (pyLower geo) = true ∨
    pyLower geo = "national"

instance (d : Deal) (p : CapitalPartner) : Decidable (geoMatches d p) := by
  unfold geoMatches
  infer_instance

/-! ### Helper lemmas about the individual criteria -/

theorem sizeCrit_min (d : Deal) (p : CapitalPartner)
    (h : 0 < p.min_deal_size ∧ d.deal_size < p.min_deal_size) :
    sizeCrit d p = (0, [], [Blocker.belowMin d.deal_size p.min_deal_size]) := by
  unfold sizeCrit
  rw [if_pos h]

theorem sizeCrit_max (d : Deal) (p : CapitalPartner)
    (h1 : ¬(0 < p.min_deal_size ∧ d.deal_size < p.min_deal_size))
    (h2 : 0 < p.max_deal_size ∧ p.max_deal_size < d.deal_size) :
    sizeCrit d p = (0, [], [Blocker.aboveMax d.deal_size p.max_deal_size]) := by
  unfold sizeCrit
  rw [if_neg h1, if_pos h2]

theorem sizeCrit_pass (d : Deal) (p : CapitalPartner)
    (h1 : ¬(0 < p.min_deal_size ∧ d.deal_size < p.min_deal_size))
    (h2 : ¬(0 < p.max_deal_size ∧ p.max_deal_size < d.deal_size)) :
    sizeCrit d p = (20, [Reason.dealSizeInRange d.deal_size], []) := by
  unfold sizeCrit
  rw [if_neg h1, if_neg h2]

theorem sizeCrit_of_blockers_nil (d : Deal) (p : CapitalPartner)
    (h : (sizeCrit d p).2.2 = []) :
    sizeCrit d p = (20, [Reason.dealSizeInRange d.deal_size], []) := by
  by_cases h1 : 0 < p.min_deal_size ∧ d.deal_size < p.min_deal_size
  · rw [sizeCrit_min d p h1] at h
    simp at h
  · by_cases h2 : 0 < p.max_deal_size ∧ p.max_deal_size < d.deal_size
    · rw [sizeCrit_max d p h1 h2] at h
      simp at h
    · exact sizeCrit_pass d p h1 h2

theorem loanCrit_skip (d : Deal) (p : CapitalPartner) (h : p.loan_types = []) :
    loanCrit d p = (0, [], []) := by
  unfold loanCrit
  simp [h]

theorem loanCrit_of_blockers_nil (d : Deal) (p : CapitalPartner)
    (h1 : p.loan_types ≠ []) (h : (loanCrit d p).2.2 = []) :
    loanCrit d p = (25, [Reason.doesLoanType d.loan_type], []) := by
  unfold loanCrit at h ⊢
  have he : ¬(p.loan_types.isEmpty = true) := by simp [h1]
  rw [if_neg he] at h ⊢
  by_cases ha : p.loan_types.any (fun lt => pyIn (pyLower d.loan_type) (pyLower lt)) = true
  · rw [if_pos ha]
  · rw [if_neg ha] at h
    simp at h

theorem propCrit_skip (d : Deal) (p : CapitalPartner) (h : p.property_types = []) :
    propCrit d p = (0, [], []) := by
  unfold propCrit
  simp [h]

theorem propCrit_of_blockers_nil (d : Deal) (p : CapitalPartner)
    (h1 : p.property_types ≠ []) (h : (propCrit d p).2.2 = []) :
    propCrit d p = (20, [Reason.doesPropertyType d.property_type], []) := by
  unfold propCrit at h ⊢
  have he : ¬(p.property_types.isEmpty = true) := by simp [h1]
  rw [if_neg he] at h ⊢
  by_cases ha : p.property_types.any (fun pt => pyIn (pyLower d.property_type) (pyLower pt)) = true
  · rw [if_pos ha]
  · rw [if_neg ha] at h
    simp at h

theorem geoCrit_skip (d : Deal) (p : CapitalPartner) (h : p.geographies = []) :
    geoCrit d p = (0, [], []) := by
  unfold geoCrit
  simp [h]

theorem geoCrit_hit (d : Deal) (p : CapitalPartner) (h1 : p.geographies ≠ [])
    (ha : p.geographies.any (fun geo =>
      pyIn (pyLower geo) (pyLower d.location) ||
      pyIn (pyLower d.location) (pyLower geo) ||
      (pyLower geo == "national")) = true) :
    geoCrit d p = (15, [Reason.coversLocation d.location], []) := by
  unfold geoCrit
  have he : ¬(p.geographies.isEmpty = true) := by simp [h1]
  rw [if_neg he, if_pos ha]

theorem geoCrit_miss (d : Deal) (p : CapitalPartner) (h1 : p.geographies ≠ [])
    (ha : ¬(p.geographies.any (fun geo =>
      pyIn (pyLower geo) (pyLower d.location) ||
      pyIn (pyLower d.location) (pyLower geo) ||
      (pyLower geo == "national")) = true)) :
    geoCrit d p = (0, [], [Blocker.noGeography d.location p.geographies]) := by
  unfold geoCrit
  have he : ¬(p.geographies.isEmpty = true) := by simp [h1]
  rw [if_neg he, if_neg ha]

theorem geoCrit_of_blockers_nil (d : Deal) (p : CapitalPartner)
    (h1 : p.geographies ≠ []) (h : (geoCrit d p).2.2 = []) :
    geoCrit d p = (15, [Reason.coversLocation d.location], []) := by
  by_cases ha : p.geographies.any (fun geo =>
      pyIn (pyLower geo) (pyLower d.location) ||
      pyIn (pyLower d.location) (pyLower geo) ||
      (pyLower geo == "national")) = true
  · exact geoCrit_hit d p h1 ha
  · rw [geoCrit_miss d p h1 ha] at h
    simp at h

theorem ltcCrit_skip (d : Deal) (p : CapitalPartner) (h : ¬(0 < p.max_ltc)) :
    ltcCrit d p = (0, [], []) := by
  unfold ltcCrit
  rw [if_neg h]

theorem ltcCrit_of_blockers_nil (d : Deal) (p : CapitalPartner)
    (h1 : 0 < p.max_ltc) (h : (ltcCrit d p).2.2 = []) :
    ltcCrit d p = (20, [Reason.canDoLtc d.target_ltc p.max_ltc], []) := by
  unfold ltcCrit at h ⊢
  rw [if_pos h1] at h ⊢
  by_cases hc : d.target_ltc ≤ p.max_ltc
  · rw [if_pos hc]
  · rw [if_neg hc] at h
    simp at h

theorem sizeCrit_fst_le (d : Deal) (p : CapitalPartner) : (sizeCrit d p).1 ≤ 20 := by
  unfold sizeCrit
  split
  · simp
  · split <;> simp

theorem loanCrit_fst_le (d : Deal) (p : CapitalPartner) : (loanCrit d p).1 ≤ 25 := by
  unfold loanCrit
  split
  · simp
  · split <;> simp

theorem propCrit_fst_le (d : Deal) (p : CapitalPartner) : (propCrit d p).1 ≤ 20 := by
  unfold propCrit
  split
  · simp
  · split <;> simp

theorem geoCrit_fst_le (d : Deal) (p : CapitalPartner) : (geoCrit d p).1 ≤ 15 := by
  unfold geoCrit
  split
  · simp
  · split <;> simp

theorem ltcCrit_fst_le (d : Deal) (p : CapitalPartner) : (ltcCrit d p).1 ≤ 20 := by
  unfold ltcCrit
  split
  · split <;> simp
  · simp

/-- Every reason produced by the loan-type block is a `doesLoanType`. -/
theorem loanCrit_reasons_shape (d : Deal) (p : CapitalPartner) :
    ∀ r ∈ (loanCrit d p).2.1, r = Reason.doesLoanType d.loan_type := by
  unfold loanCrit
  split
  · simp
  · split <;> simp

theorem sizeCrit_reasons_shape (d : Deal) (p : CapitalPartner) :
    ∀ r ∈ (sizeCrit d p).2.1, r = Reason.dealSizeInRange d.deal_size := by
  unfold sizeCrit
  split
  · simp
  · split <;> simp

theorem propCrit_reasons_shape (d : Deal) (p : CapitalPartner) :
    ∀ r ∈ (propCrit d p).2.1, r = Reason.doesPropertyType d.property_type := by
  unfold propCrit
  split
  · simp
  · split <;> simp

theorem geoCrit_reasons_shape (d : Deal) (p : CapitalPartner) :
    ∀ r ∈ (geoCrit d p).2.1, r = Reason.coversLocation d.location := by
  unfold geoCrit
  split
  · simp
  · split <;> simp

theorem ltcCrit_reasons_shape (d : Deal) (p : CapitalPartner) :
    ∀ r ∈ (ltcCrit d p).2.1, r = Reason.canDoLtc d.target_ltc p.max_ltc := by
  unfold ltcCrit
  split
  · split <;> simp
  · simp

theorem sizeCrit_blockers_shape (d : Deal) (p : CapitalPartner) :
    ∀ b ∈ (sizeCrit d p).2.2, b = Blocker.belowMin d.deal_size p.min_deal_size ∨
      b = Blocker.aboveMax d.deal_size p.max_deal_size := by
  unfold sizeCrit
  split
  · simp
  · split <;> simp

theorem loanCrit_blockers_shape (d : Deal) (p : CapitalPartner) :
    ∀ b ∈ (loanCrit d p).2.2, b = Blocker.noLoanType d.loan_type p.loan_types := by
  unfold loanCrit
  split
  · simp
  · split <;> simp

theorem propCrit_blockers_shape (d : Deal) (p : CapitalPartner) :
    ∀ b ∈ (propCrit d p).2.2, b = Blocker.noPropertyType d.property_type := by
  unfold propCrit
  split
  · simp
  · split <;> simp

theorem geoCrit_blockers_shape (d : Deal) (p : CapitalPartner) :
    ∀ b ∈ (geoCrit d p).2.2, b = Blocker.noGeography d.location p.geographies := by
  unfold geoCrit
  split
  · simp
  · split <;> simp

theorem ltcCrit_blockers_shape (d : Deal) (p : CapitalPartner) :
    ∀ b ∈ (ltcCrit d p).2.2, b = Blocker.ltcExceedsMax d.target_ltc p.max_ltc := by
  unfold ltcCrit
  split
  · split <;> simp
  · simp

/-! ### Helper lemmas about `match_partner` as a whole -/

theorem match_partner_blockers (d : Deal) (p : CapitalPartner) :
    (match_partner d p).blockers = critBlockers d p := rfl

theorem match_partner_reasons (d : Deal) (p : CapitalPartner) :
    (match_partner d p).reasons = critReasons d p := rfl

theorem crit_blockers_nil (d : Deal) (p : CapitalPartner) (h : critBlockers d p = []) :
    (sizeCrit d p).2.2 = [] ∧ (loanCrit d p).2.2 = [] ∧ (propCrit d p).2.2 = [] ∧
      (geoCrit d p).2.2 = [] ∧ (ltcCrit d p).2.2 = [] := by
  unfold critBlockers at h
  simpa using h

theorem critScore_ge_of_no_blocker (d : Deal) (p : CapitalPartner)
    (h : critBlockers d p = []) : 20 ≤ critScore d p := by
  obtain ⟨h1, -, -, -, -⟩ := crit_blockers_nil d p h
  have hs := sizeCrit_of_blockers_nil d p h1
  unfold critScore
  rw [hs]
  simp
  omega

/-- The loan, property, geography and LTC blocks never produce a
deal-size reason. -/
theorem size_reason_not_in_rest (d : Deal) (p : CapitalPartner) (q : ℚ) :
    Reason.dealSizeInRange q ∉ (loanCrit d p).2.1 ∧
    Reason.dealSizeInRange q ∉ (propCrit d p).2.1 ∧
    Reason.dealSizeInRange q ∉ (geoCrit d p).2.1 ∧
    Reason.dealSizeInRange q ∉ (ltcCrit d p).2.1 := by
  refine ⟨fun hq => ?_, fun hq => ?_, fun hq => ?_, fun hq => ?_⟩
  · have := loanCrit_reasons_shape d p _ hq
    simp at this
  · have := propCrit_reasons_shape d p _ hq
    simp at this
  · have := geoCrit_reasons_shape d p _ hq
    simp at this
  · have := ltcCrit_reasons_shape d p _ hq
    simp at this

/-- The loan, property, geography and LTC blocks never produce a
deal-size blocker. -/
theorem size_blocker_not_in_rest (d : Deal) (p : CapitalPartner) (a b : ℚ) :
    (Blocker.belowMin a b ∉ (loanCrit d p).2.2 ∧
     Blocker.belowMin a b ∉ (propCrit d p).2.2 ∧
     Blocker.belowMin a b ∉ (geoCrit d p).2.2 ∧
     Blocker.belowMin a b ∉ (ltcCrit d p).2.2) ∧
    (Blocker.aboveMax a b ∉ (loanCrit d p).2.2 ∧
     Blocker.aboveMax a b ∉ (propCrit d p).2.2 ∧
     Blocker.aboveMax a b ∉ (geoCrit d p).2.2 ∧
     Blocker.aboveMax a b ∉ (ltcCrit d p).2.2) := by
  refine ⟨⟨fun hq => ?_, fun hq => ?_, fun hq => ?_, fun hq => ?_⟩,
    ⟨fun hq => ?_, fun hq => ?_, fun hq => ?_, fun hq => ?_⟩⟩
  · have := loanCrit_blockers_shape d p _ hq
    simp at this
  · have := propCrit_blockers_shape d p _ hq
    simp at this
  · have := geoCrit_blockers_shape d p _ hq
    simp at this
  · have := ltcCrit_blockers_shape d p _ hq
    simp at this
  · have := loanCrit_blockers_shape d p _ hq
    simp at this
  · have := propCrit_blockers_shape d p _ hq
    simp at this
  · have := geoCrit_blockers_shape d p _ hq
    simp at this
  · have := ltcCrit_blockers_shape d p _ hq
    simp at this

/-- The size, loan, property and LTC blocks never produce a geography
reason. -/
theorem geo_reason_not_in_rest (d : Deal) (p : CapitalPartner) :
    Reason.coversLocation d.location ∉ (sizeCrit d p).2.1 ∧
    Reason.coversLocation d.location ∉ (loanCrit d p).2.1 ∧
    Reason.coversLocation d.location ∉ (propCrit d p).2.1 ∧
    Reason.coversLocation d.location ∉ (ltcCrit d p).2.1 := by
  refine ⟨fun hq => ?_, fun hq => ?_, fun hq => ?_, fun hq => ?_⟩
  · have := sizeCrit_reasons_shape d p _ hq
    simp at this
  · have := loanCrit_reasons_shape d p _ hq
    simp at this
  · have := propCrit_reasons_shape d p _ hq
    simp at this
  · have := ltcCrit_reasons_shape d p _ hq
    simp at this

/-- The size, loan, property and LTC blocks never produce a geography
blocker. -/
theorem geo_blocker_not_in_rest (d : Deal) (p : CapitalPartner) :
    Blocker.noGeography d.location p.geographies ∉ (sizeCrit d p).2.2 ∧
    Blocker.noGeography d.location p.geographies ∉ (loanCrit d p).2.2 ∧
    Blocker.noGeography d.location p.geographies ∉ (propCrit d p).2.2 ∧
    Blocker.noGeography d.location p.geographies ∉ (ltcCrit d p).2.2 := by
  refine ⟨fun hq => ?_, fun hq => ?_, fun hq => ?_, fun hq => ?_⟩
  · have := sizeCrit_blockers_shape d p _ hq
    simp at this
  · have := loanCrit_blockers_shape d p _ hq
    simp at this
  · have := propCrit_blockers_shape d p _ hq
    simp at this
  · have := ltcCrit_blockers_shape d p _ hq
    simp at this

/-! ### Claim theorems -/

/-- Claim C1: for every (deal, partner) pair, if the result's blockers
list is non-empty then its score is 0 and its match level is
"NO MATCH", overriding however many positive criteria also passed. -/
theorem blocker_forces_no_match (d : Deal) (p : CapitalPartner)
    (h : (match_partner d p).blockers ≠ []) :
    (match_partner d p).score = 0 ∧ (match_partner d p).match_level = "NO MATCH" := by
  have hb : critBlockers d p ≠ [] := h
  constructor <;> simp [match_partner, hb]

/-- Witness for C1: the example deal against Bawag has a blocker, hence
score 0 and level NO MATCH. -/
theorem blocker_forces_no_match_witness :
    (match_partner exampleDeal bawag).blockers ≠ [] ∧
    ((match_partner exampleDeal bawag).score = 0 ∧
     (match_partner exampleDeal bawag).match_level = "NO MATCH") :=
  ⟨by decide, blocker_forces_no_match exampleDeal bawag (by decide)⟩

/-- Claim C3: criteria are not short-circuited.  The deal
(size 100M, Multifamily, NYC, Construction, target LTC 75) against the
demo partner Bawag (max LTC 65) yields exactly one blocker (the LTC
one), score 0, level NO MATCH, and the reasons of the four other,
passing criteria are all still present (in evaluation order). -/
theorem bawag_scenario :
    (match_partner exampleDeal bawag).blockers = [Blocker.ltcExceedsMax 75 65] ∧
    (match_partner exampleDeal bawag).score = 0 ∧
    (match_partner exampleDeal bawag).match_level = "NO MATCH" ∧
    (match_partner exampleDeal bawag).reasons =
      [Reason.dealSizeInRange 100000000, Reason.doesLoanType "Construction",
       Reason.doesPropertyType "Multifamily", Reason.coversLocation "NYC"] ∧
    (match_partner exampleDeal bawag).reasons.length = 4 := by
  decide

/-- Claim C4: when all five criteria are applicable (non-empty loan
types, property types and geographies, positive max LTC) and no blocker
was produced, the score is exactly 100 = 20+25+20+15+20 and the level is
HIGH MATCH. -/
theorem all_criteria_pass_high (d : Deal) (p : CapitalPartner)
    (h1 : p.loan_types ≠ []) (h2 : p.property_types ≠ []) (h3 : p.geographies ≠ [])
    (h4 : 0 < p.max_ltc) (h5 : (match_partner d p).blockers = []) :
    (match_partner d p).score = 100 ∧ (match_partner d p).match_level = "HIGH MATCH" := by
  have hb : critBlockers d p = [] := h5
  obtain ⟨e1, e2, e3, e4, e5⟩ := crit_blockers_nil d p hb
  have s1 := sizeCrit_of_blockers_nil d p e1
  have s2 := loanCrit_of_blockers_nil d p h1 e2
  have s3 := propCrit_of_blockers_nil d p h2 e3
  have s4 := geoCrit_of_blockers_nil d p h3 e4
  have s5 := ltcCrit_of_blockers_nil d p h4 e5
  have hs : critScore d p = 100 := by
    unfold critScore
    rw [s1, s2, s3, s4, s5]
    rfl
  constructor <;> simp [match_partner, hb, hs]

/-- Witness for C4: the example deal against Oaknorth satisfies all five
criteria and scores 100, HIGH MATCH. -/
theorem all_criteria_pass_high_witness :
    (oaknorth.loan_types ≠ [] ∧ oaknorth.property_types ≠ [] ∧
     oaknorth.geographies ≠ [] ∧ 0 < oaknorth.max_ltc ∧
     (match_partner exampleDeal oaknorth).blockers = []) ∧
    ((match_partner exampleDeal oaknorth).score = 100 ∧
     (match_partner exampleDeal oaknorth).match_level = "HIGH MATCH") :=
  ⟨⟨by decide, by decide, by decide, by decide, by decide⟩,
   all_criteria_pass_high exampleDeal oaknorth (by decide) (by decide) (by decide)
     (by decide) (by decide)⟩

/-- Claim C8: a partner with empty loan_types, property_types and
geographies and max_ltc = 0, against a deal within its size range, gets
score exactly 20, level LOW MATCH and no blockers: the unrestricted
criteria are silently skipped rather than treated as matching nothing. -/
theorem unrestricted_partner_low (d : Deal) (p : CapitalPartner)
    (h1 : p.loan_types = []) (h2 : p.property_types = []) (h3 : p.geographies = [])
    (h4 : p.max_ltc = 0)
    (h5 : ¬(0 < p.min_deal_size ∧ d.deal_size < p.min_deal_size))
    (h6 : ¬(0 < p.max_deal_size ∧ p.max_deal_size < d.deal_size)) :
    (match_partner d p).score = 20 ∧ (match_partner d p).match_level = "LOW MATCH" ∧
      (match_partner d p).blockers = [] := by
  have s1 := sizeCrit_pass d p h5 h6
  have s2 := loanCrit_skip d p h1
  have s3 := propCrit_skip d p h2
  have s4 := geoCrit_skip d p h3
  have s5 := ltcCrit_skip d p (by rw [h4]; exact lt_irrefl 0)
  have hb : critBlockers d p = [] := by
    unfold critBlockers
    rw [s1, s2, s3, s4, s5]
    rfl
  have hs : critScore d p = 20 := by
    unfold critScore
    rw [s1, s2, s3, s4, s5]
    rfl
  refine ⟨?_, ?_, ?_⟩ <;> simp [match_partner, hb, hs]

/-- Witness for C8: the fully unrestricted partner against the example
deal scores 20, LOW MATCH, no blockers. -/
theorem unrestricted_partner_low_witness :
    (openBook.loan_types = [] ∧ openBook.property_types = [] ∧
     openBook.geographies = [] ∧ openBook.max_ltc = 0 ∧
     ¬(0 < openBook.min_deal_size ∧ exampleDeal.deal_size < openBook.min_deal_size) ∧
     ¬(0 < openBook.max_deal_size ∧ openBook.max_deal_size < exampleDeal.deal_size)) ∧
    ((match_partner exampleDeal openBook).score = 20 ∧
     (match_partner exampleDeal openBook).match_level = "LOW MATCH" ∧
     (match_partner exampleDeal openBook).blockers = []) :=
  ⟨⟨by decide, by decide, by decide, by decide, by decide, by decide⟩,
   unrestricted_partner_low exampleDeal openBook (by decide) (by decide) (by decide)
     (by decide) (by decide) (by decide)⟩

/-- Claim C10: the score is 0 exactly when the blockers list is
non-empty: the size criterion always contributes a blocker or 20 points,
so a blocker-free result scores at least 20. -/
theorem score_zero_iff_blocked (d : Deal) (p : CapitalPartner) :
    (match_partner d p).score = 0 ↔ (match_partner d p).blockers ≠ [] := by
  by_cases hb : critBlockers d p = []
  · have h20 := critScore_ge_of_no_blocker d p hb
    simp [match_partner, hb]
    omega
  · simp [match_partner, hb]

/-- Claim C5: the deal-size criterion always fires with exactly one of
three mutually exclusive outcomes: a below-min blocker when the positive
minimum exceeds the deal size; otherwise an above-max blocker when the
positive maximum is exceeded; otherwise the in-range reason (and no size
blocker).  A zero minimum imposes no floor and a zero maximum no ceiling
(the conditions require positivity). -/
theorem size_criterion_trichotomy (d : Deal) (p : CapitalPartner) :
    ((0 < p.min_deal_size ∧ d.deal_size < p.min_deal_size) →
      Blocker.belowMin d.deal_size p.min_deal_size ∈ (match_partner d p).blockers ∧
      ∀ q : ℚ, Reason.dealSizeInRange q ∉ (match_partner d p).reasons) ∧
    (¬(0 < p.min_deal_size ∧ d.deal_size < p.min_deal_size) →
      (0 < p.max_deal_size ∧ p.max_deal_size < d.deal_size) →
      Blocker.aboveMax d.deal_size p.max_deal_size ∈ (match_partner d p).blockers ∧
      ∀ q : ℚ, Reason.dealSizeInRange q ∉ (match_partner d p).reasons) ∧
    (¬(0 < p.min_deal_size ∧ d.deal_size < p.min_deal_size) →
      ¬(0 < p.max_deal_size ∧ p.max_deal_size < d.deal_size) →
      Reason.dealSizeInRange d.deal_size ∈ (match_partner d p).reasons ∧
      ∀ a b : ℚ, Blocker.belowMin a b ∉ (match_partner d p).blockers ∧
        Blocker.aboveMax a b ∉ (match_partner d p).blockers) := by
  refine ⟨fun h => ?_, fun h1 h2 => ?_, fun h1 h2 => ?_⟩
  · have s := sizeCrit_min d p h
    constructor
    · rw [match_partner_blockers]
      unfold critBlockers
      rw [s]
      simp
    · intro q hq
      rw [match_partner_reasons] at hq
      unfold critReasons at hq
      rw [s] at hq
      simp at hq
      obtain ⟨nl, np, ng, nt⟩ := size_reason_not_in_rest d p q
      rcases hq with hq | hq | hq | hq
      exacts [nl hq, np hq, ng hq, nt hq]
  · have s := sizeCrit_max d p h1 h2
    constructor
    · rw [match_partner_blockers]
      unfold critBlockers
      rw [s]
      simp
    · intro q hq
      rw [match_partner_reasons] at hq
      unfold critReasons at hq
      rw [s] at hq
      simp at hq
      obtain ⟨nl, np, ng, nt⟩ := size_reason_not_in_rest d p q
      rcases hq with hq | hq | hq | hq
      exacts [nl hq, np hq, ng hq, nt hq]
  · have s := sizeCrit_pass d p h1 h2
    constructor
    · rw [match_partner_reasons]
      unfold critReasons
      rw [s]
      simp
    · intro a b
      obtain ⟨⟨bl1, bp1, bg1, bt1⟩, bl2, bp2, bg2, bt2⟩ := size_blocker_not_in_rest d p a b
      constructor
      · intro hq
        rw [match_partner_blockers] at hq
        unfold critBlockers at hq
        rw [s] at hq
        simp at hq
        rcases hq with hq | hq | hq | hq
        exacts [bl1 hq, bp1 hq, bg1 hq, bt1 hq]
      · intro hq
        rw [match_partner_blockers] at hq
        unfold critBlockers at hq
        rw [s] at hq
        simp at hq
        rcases hq with hq | hq | hq | hq
        exacts [bl2 hq, bp2 hq, bg2 hq, bt2 hq]

/-- Witness for C5: a 10M deal against Mesa West (min 50M) yields the
below-min blocker and no size reason. -/
theorem size_criterion_trichotomy_witness :
    (0 < mesa_west.min_deal_size ∧ smallDeal.deal_size < mesa_west.min_deal_size) ∧
    Blocker.belowMin smallDeal.deal_size mesa_west.min_deal_size ∈
      (match_partner smallDeal mesa_west).blockers ∧
    Reason.dealSizeInRange 10000000 ∉ (match_partner smallDeal mesa_west).reasons :=
  ⟨by decide,
   ((size_criterion_trichotomy smallDeal mesa_west).1 (by decide)).1,
   ((size_criterion_trichotomy smallDeal mesa_west).1 (by decide)).2 10000000⟩

/-- Claim C7: with a non-empty geography list, the geography criterion
passes (its reason present, its blocker absent, +15 points) exactly when
some partner geography label, compared case-insensitively, is contained
in the deal's location or contains it or equals "national". -/
theorem geography_match_iff (d : Deal) (p : CapitalPartner) (h : p.geographies ≠ []) :
    (Reason.coversLocation d.location ∈ (match_partner d p).reasons ↔ geoMatches d p) ∧
    (Blocker.noGeography d.location p.geographies ∈ (match_partner d p).blockers ↔
      ¬geoMatches d p) ∧
    ((geoCrit d p).1 = 15 ↔ geoMatches d p) := by
  have key : (p.geographies.any (fun geo =>
      pyIn (pyLower geo) (pyLower d.location) ||
      pyIn (pyLower d.location) (pyLower geo) ||
      (pyLower geo == "national")) = true) ↔ geoMatches d p := by
    unfold geoMatches
    simp [List.any_eq_true, or_assoc]
  by_cases hc : p.geographies.any (fun geo =>
      pyIn (pyLower geo) (pyLower d.location) ||
      pyIn (pyLower d.location) (pyLower geo) ||
      (pyLower geo == "national")) = true
  · have hg := geoCrit_hit d p h hc
    have hm : geoMatches d p := key.mp hc
    refine ⟨?_, ?_, ?_⟩
    · simp only [hm, iff_true]
      rw [match_partner_reasons]
      unfold critReasons
      rw [hg]
      simp
    · simp only [hm, not_true, iff_false]
      intro hq
      rw [match_partner_blockers] at hq
      unfold critBlockers at hq
      rw [hg] at hq
      simp at hq
      obtain ⟨n1, n2, n3, n4⟩ := geo_blocker_not_in_rest d p
      rcases hq with hq | hq | hq | hq
      exacts [n1 hq, n2 hq, n3 hq, n4 hq]
    · rw [hg]
      simp [hm]
  · have hg := geoCrit_miss d p h hc
    have hm : ¬geoMatches d p := fun hmm => hc (key.mpr hmm)
    refine ⟨?_, ?_, ?_⟩
    · simp only [hm, iff_false]
      intro hq
      rw [match_partner_reasons] at hq
      unfold critReasons at hq
      rw [hg] at hq
      simp at hq
      obtain ⟨n1, n2, n3, n4⟩ := geo_reason_not_in_rest d p
      rcases hq with hq | hq | hq | hq
      exacts [n1 hq, n2 hq, n3 hq, n4 hq]
    · constructor
      · intro _
        exact hm
      · intro _
        rw [match_partner_blockers]
        unfold critBlockers
        rw [hg]
        simp
    · rw [hg]
      simp [hm]

/-- Witness for C7: Oaknorth's geographies are non-empty, and the three
equivalences hold for it against the example deal. -/
theorem geography_match_iff_witness :
    oaknorth.geographies ≠ [] ∧
    ((Reason.coversLocation exampleDeal.location ∈
        (match_partner exampleDeal oaknorth).reasons ↔ geoMatches exampleDeal oaknorth) ∧
     (Blocker.noGeography exampleDeal.location oaknorth.geographies ∈
        (match_partner exampleDeal oaknorth).blockers ↔ ¬geoMatches exampleDeal oaknorth) ∧
     ((geoCrit exampleDeal oaknorth).1 = 15 ↔ geoMatches exampleDeal oaknorth)) :=
  ⟨by decide, geography_match_iff exampleDeal oaknorth (by decide)⟩

/-- Claim C9: when two or more of the four skippable criteria are
unrestricted (empty loan_types / property_types / geographies, or
max_ltc = 0), the level can never be HIGH MATCH: the attainable score is
at most 65 = 100 - (15 + 20), below the 80-point HIGH MATCH floor. -/
theorem two_unrestricted_never_high (d : Deal) (p : CapitalPartner)
    (h : 2 ≤ (if p.loan_types = [] then 1 else 0) +
      (if p.property_types = [] then 1 else 0) +
      (if p.geographies = [] then 1 else 0) +
      (if p.max_ltc = 0 then 1 else 0)) :
    (match_partner d p).match_level ≠ "HIGH MATCH" ∧
      (match_partner d p).score ≤ 65 := by
  have hscore : critScore d p ≤ 65 := by
    have b0 := sizeCrit_fst_le d p
    have bl := loanCrit_fst_le d p
    have bp := propCrit_fst_le d p
    have bg := geoCrit_fst_le d p
    have bt := ltcCrit_fst_le d p
    unfold critScore
    rcases Decidable.em (p.loan_types = []) with h1 | h1 <;>
      rcases Decidable.em (p.property_types = []) with h2 | h2 <;>
        rcases Decidable.em (p.geographies = []) with h3 | h3 <;>
          rcases Decidable.em (p.max_ltc = 0) with h4 | h4 <;>
            (try simp [h1, h2, h3, h4] at h) <;>
            (try have eL : (loanCrit d p).1 = 0 := by simp [loanCrit_skip d p h1]) <;>
            (try have eP : (propCrit d p).1 = 0 := by simp [propCrit_skip d p h2]) <;>
            (try have eG : (geoCrit d p).1 = 0 := by simp [geoCrit_skip d p h3]) <;>
            (try have hnt : ¬(0 < p.max_ltc) := by rw [h4]; exact lt_irrefl 0) <;>
            (try have eT : (ltcCrit d p).1 = 0 := by simp [ltcCrit_skip d p hnt]) <;>
            omega
  refine ⟨?_, ?_⟩
  · by_cases hb : critBlockers d p = []
    · have h80 : ¬(80 ≤ critScore d p) := by omega
      have hlv : (match_partner d p).match_level =
          if 50 ≤ critScore d p then "PARTIAL MATCH" else "LOW MATCH" := by
        simp [match_partner, hb, h80]
      rw [hlv]
      split <;> decide
    · have hlv : (match_partner d p).match_level = "NO MATCH" := by
        simp [match_partner, hb]
      rw [hlv]
      decide
  · by_cases hb : critBlockers d p = []
    · simpa [match_partner, hb] using hscore
    · simp [match_partner, hb]

/-- Witness for C9: the fully unrestricted partner (all four skippable
criteria unrestricted) never reaches HIGH MATCH against the example
deal. -/
theorem two_unrestricted_never_high_witness :
    (2 ≤ (if openBook.loan_types = ([] : List String) then 1 else 0) +
      (if openBook.property_types = ([] : List String) then 1 else 0) +
      (if openBook.geographies = ([] : List String) then 1 else 0) +
      (if openBook.max_ltc = 0 then 1 else 0)) ∧
    ((match_partner exampleDeal openBook).match_level ≠ "HIGH MATCH" ∧
      (match_partner exampleDeal openBook).score ≤ 65) :=
  ⟨by decide, two_unrestricted_never_high exampleDeal openBook (by decide)⟩

/-- Claim C2: `find_matches` returns one result per input partner
(same length, and a permutation of the per-partner results), sorted by
score descending, and the sort is stable: for every score value, the
results with that score appear in input order (so identical inputs give
identical output order). -/
theorem rank_sorted_stable (deal : Deal) (partners : List CapitalPartner) :
    (find_matches deal partners).length = partners.length ∧
    List.Pairwise (fun a b : MatchResult => b.score ≤ a.score) (find_matches deal partners) ∧
    (find_matches deal partners).Perm (partners.map (fun p => match_partner deal p)) ∧
    ∀ s : ℕ,
      (find_matches deal partners).filter (fun r => r.score == s) =
        (partners.map (fun p => match_partner deal p)).filter (fun r => r.score == s) := by
  have htrans : ∀ a b c : MatchResult,
      decide (b.score ≤ a.score) = true → decide (c.score ≤ b.score) = true →
      decide (c.score ≤ a.score) = true := by
    intro a b c hab hbc
    simp only [decide_eq_true_eq] at hab hbc ⊢
    omega
  have htotal : ∀ a b : MatchResult,
      (decide (b.score ≤ a.score) || decide (a.score ≤ b.score)) = true := by
    intro a b
    simp only [Bool.or_eq_true, decide_eq_true_eq]
    omega
  refine ⟨?_, ?_, ?_, ?_⟩
  · unfold find_matches
    rw [List.length_mergeSort, List.length_map]
  · unfold find_matches
    have hp := List.sorted_mergeSort htrans htotal
      (partners.map (fun p => match_partner deal p))
    exact hp.imp (fun hab => of_decide_eq_true hab)
  · unfold find_matches
    exact List.mergeSort_perm _ _
  · intro s
    unfold find_matches
    set l := partners.map (fun p => match_partner deal p) with hl
    set q : MatchResult → Bool := fun r => r.score == s with hq
    have hmemq : ∀ a ∈ l.filter q, a.score = s := by
      intro a ha
      have := List.of_mem_filter ha
      simpa [hq] using this
    have hpw : (l.filter q).Pairwise
        (fun a b : MatchResult => decide (b.score ≤ a.score) = true) := by
      apply List.pairwise_of_forall_mem_list
      intro a ha b hb
      have e1 := hmemq a ha
      have e2 := hmemq b hb
      simp [e1, e2]
    have hsub : List.Sublist (l.filter q)
        (l.mergeSort (fun a b => decide (b.score ≤ a.score))) :=
      List.sublist_mergeSort htrans htotal hpw (List.filter_sublist l)
    have hsub2 : List.Sublist ((l.filter q).filter q)
        ((l.mergeSort (fun a b => decide (b.score ≤ a.score))).filter q) :=
      hsub.filter q
    have hself : (l.filter q).filter q = l.filter q := by
      apply List.filter_eq_self.mpr
      intro a ha
      exact List.of_mem_filter ha
    rw [hself] at hsub2
    have hlen : ((l.mergeSort (fun a b => decide (b.score ≤ a.score))).filter q).length
        = (l.filter q).length :=
      ((List.mergeSort_perm l (fun a b => decide (b.score ≤ a.score))).filter q).length_eq
    exact (hsub2.eq_of_length hlen.symm).symm

/-- Counterexample to C6 as stated: a parsed column set with no
max_deal_size key at all yields a partner max_deal_size of 0, not the
999,999,999 sentinel (the `.get` default "0" is a truthy string, so the
`or 999999999` fallback never fires for an absent key). -/
theorem missing_max_deal_size_counterexample :
    coerce_max_deal_size [("min_deal_size", "30000000")] = some 0 ∧
    ¬(coerce_max_deal_size [("min_deal_size", "30000000")] = some 999999999) := by
  decide

/-- Amended C6: a record whose max_deal_size column is present with
empty text (empty after stripping commas and dollar signs) is
constructed with the 999,999,999 sentinel; a record whose max_deal_size
key is absent from the parsed columns gets 0 instead (both values are
treated as unbounded by the deal-size check, which only enforces a
positive maximum). -/
theorem max_deal_size_sentinel (cols : List (String × String)) :
    (cols.find? (fun kv => kv.1 == "max_deal_size") = none →
      coerce_max_deal_size cols = some 0) ∧
    (∀ kv, cols.find? (fun kv2 => kv2.1 == "max_deal_size") = some kv →
      stripMoneyChars kv.2 = "" → coerce_max_deal_size cols = some 999999999) := by
  constructor
  · intro hf
    unfold coerce_max_deal_size dictGet
    rw [hf]
    decide
  · intro kv hf hs
    unfold coerce_max_deal_size dictGet
    rw [hf]
    simp [hs]

/-- Witness for amended C6: an absent key gives 0; an empty-text column
gives the sentinel. -/
theorem max_deal_size_sentinel_witness :
    coerce_max_deal_size [("loan_types", "Bridge")] = some 0 ∧
    coerce_max_deal_size [("max_deal_size", ""), ("max_ltc", "70")] = some 999999999 :=
  ⟨(max_deal_size_sentinel [("loan_types", "Bridge")]).1 (by decide),
   (max_deal_size_sentinel [("max_deal_size", ""), ("max_ltc", "70")]).2
     ("max_deal_size", "") (by decide) (by decide)⟩

end CapitalMatcher
